import Mathlib

/-!
# Verification model of `tornet` (tornet-multi-platform)

A shallow embedding of the core control logic of `src/tornet/tornet.py`:

* the interval parsing and sleep-time computation of `change_ip_repeatedly`
  (including the Python exception behaviour of `str.split`, `int(...)` and
  `random.randint`, and the `except IndexError` handler);
* the rotation loop of `change_ip_repeatedly` as a step function on a loop
  state, in both its `count == 0` (`while True`) and `count > 0`
  (`for _ in range(count)`) forms;
* the identity resolution functions `ma_ip`, `ma_ip_tor`, `ma_ip_normal`
  with Python truthiness for optional address strings;
* the SOCKS readiness loop `wait_for_tor`;
* the cleanup function `stop_services` and the signal/atexit exit paths.

Network and OS effects are modelled as oracle inputs (per-call response
values, per-cycle randomness); machine behaviour that the code observes
(HTTP status handling, exception classes, truthiness) is made explicit.
-/

namespace Tornet

/-- Python exception classes that the modelled code can raise or catch. -/
inductive PyErr
  | indexError
  | valueError
  | attributeError
deriving DecidableEq, Repr

/-- A Python value flowing into `change_ip_repeatedly interval`: the CLI can
supply either a string (`type=str` applied to a given argument) or the raw
integer default `60` (argparse does not apply `type` to a non-string
default). -/
inductive PyVal
  | str : String → PyVal
  | int : Int → PyVal
deriving DecidableEq, Repr

/-- Python whitespace, as stripped by `int(...)`. -/
def isPySpace (c : Char) : Bool :=
  c = ' ' || c = '\t' || c = '\n' || c = '\r'

/-- Strip leading and trailing whitespace from a character list. -/
def pyStrip (cs : List Char) : List Char :=
  ((cs.dropWhile isPySpace).reverse.dropWhile isPySpace).reverse

/-- Python `s.split("-")` on the character list of `s`: split on every
occurrence of the separator, keeping empty pieces, never returning an empty
list (`"".split("-") == [""]`). -/
def splitDash : List Char → List (List Char)
  | [] => [[]]
  | c :: rest =>
      match splitDash rest with
      | [] => [[c]]
      | h :: t => if c = '-' then [] :: h :: t else (c :: h) :: t

/-- Python `s.split("-")` as a function on strings. -/
def pySplit (s : String) : List String :=
  (splitDash s.toList).map (fun cs => String.mk cs)

/-- Value of a non-empty all-digit character list, `none` otherwise. -/
def digitsVal (cs : List Char) : Option Nat :=
  if cs.isEmpty || !(cs.all Char.isDigit) then none
  else some (cs.foldl (fun n c => 10 * n + (c.toNat - 48)) 0)

/-- Python `int(s)` on a string: optional sign after stripping whitespace,
then decimal digits; anything else raises `ValueError`. -/
def pyInt (s : String) : Except PyErr Int :=
  match pyStrip s.toList with
  | '-' :: rest =>
      match digitsVal rest with
      | some n => .ok (-(n : Int))
      | none => .error .valueError
  | '+' :: rest =>
      match digitsVal rest with
      | some n => .ok (n : Int)
      | none => .error .valueError
  | cs =>
      match digitsVal cs with
      | some n => .ok (n : Int)
      | none => .error .valueError

/-- Python `random.randint(a, b)`: uniform integer in the inclusive range
`[a, b]`, raising `ValueError` when `a > b`. The entropy source is the
oracle `r`; uniformity of the underlying generator is assumed, so the draw
is modelled as `a + r % (b - a + 1)`. -/
def randint (a b : Int) (r : Nat) : Except PyErr Int :=
  if a ≤ b then .ok (a + (r : Int) % (b - a + 1)) else .error .valueError

/-- The per-cycle sleep-time computation of `change_ip_repeatedly`
(tornet.py lines 282–286 / 296–300):

```
try:
    inte = interval.split("-")
    sleep_time = random.randint(int(inte[0]), int(inte[1]))
except IndexError:
    sleep_time = int(interval)
```

Evaluation order matters: `interval.split` raises `AttributeError` on a
non-string; `int(inte[0])` is evaluated first and its `ValueError` is not
caught (`split` never returns an empty list, so `inte[0]` itself cannot
raise); `inte[1]` raises `IndexError` exactly when the split has a single
element, which the handler turns into `int(interval)`; `randint` raises
`ValueError` when the lower bound exceeds the upper. -/
def computeSleepTime (interval : PyVal) (r : Nat) : Except PyErr Int :=
  match interval with
  | .int _ => .error .attributeError
  | .str s =>
      let inte := pySplit s
      match pyInt (inte.headD "") with
      | .error e => .error e
      | .ok a =>
          match inte[1]? with
          | none => pyInt s
          | some s2 =>
              match pyInt s2 with
              | .error e => .error e
              | .ok b => randint a b r

/-- Python truthiness for an optional string: `None` and `""` are falsy,
any non-empty string is truthy. -/
def pyTruthy : Option String → Bool
  | none => false
  | some s => !(s == "")

/-- Python `a or b`: `a` if truthy, else `b`. -/
def pyOr (a b : Option String) : Option String :=
  if pyTruthy a then a else b

/-- A response from the Tor verification endpoint
(`https://check.torproject.org/api/ip`), as observed by `ma_ip_tor`: the
HTTP status, the JSON `IP` field (absent fields are `none`), and the JSON
`IsTor` field (`data.get("IsTor", False)`). -/
structure TorApiResponse where
  status : Nat
  ipField : Option String
  isTorField : Bool
deriving DecidableEq, Repr

/-- `ma_ip_tor` (tornet.py lines 214–242): a proxied request to the
verification endpoint. The oracle `resp` is `none` when the transport
fails or times out (`requests.RequestException`). `raise_for_status`
raises on a 4xx/5xx status; every `RequestException` is caught and turned
into `None`. Returns the resolved address (first component) and whether
the not-an-exit-node warning was logged (second component). -/
def ma_ip_tor (resp : Option TorApiResponse) : Option String × Bool :=
  match resp with
  | none => (none, false)
  | some r =>
      if 400 ≤ r.status ∧ r.status < 600 then (none, false)
      else (r.ipField, !r.isTorField)

/-- A response from the plain echo endpoint (`https://api.ipify.org`), as
observed by `ma_ip_normal`: HTTP status and body text. -/
structure EchoResponse where
  status : Nat
  body : String
deriving DecidableEq, Repr

/-- `ma_ip_normal` (tornet.py lines 243–257): a direct request to the echo
endpoint; transport failures (`resp = none`) and non-success statuses
(via `raise_for_status`) are caught and become `None`; on success the
stripped body text is returned. -/
def ma_ip_normal (resp : Option EchoResponse) : Option String :=
  match resp with
  | none => none
  | some r =>
      if 400 ≤ r.status ∧ r.status < 600 then none
      else some (String.mk (pyStrip r.body.toList))

/-- Outcome of one call to `ma_ip`: the address it returns, whether the
stale-circuit warning was logged, how many underlying resolutions it
performed, and the settle sleeps it executed between them. -/
structure MaIpResult where
  returned : Option String
  staleWarned : Bool
  resolveCalls : Nat
  settleSleeps : List Nat
deriving DecidableEq, Repr

/-- `ma_ip` (tornet.py lines 178–195). When Tor is running it resolves
through the proxy twice with a `time.sleep(5)` between the calls, warns
on `ip1 and ip2 and ip1 != ip2`, and returns `ip2 or ip1`; otherwise it
makes a single direct resolution. The oracle `proxied` gives the result
of the n-th proxied resolution, `direct` the result of the direct one. -/
def ma_ip (torRunning : Bool) (proxied : Nat → Option String)
    (direct : Option String) : MaIpResult :=
  if torRunning then
    let ip1 := proxied 0
    let ip2 := proxied 1
    { returned := pyOr ip2 ip1
      staleWarned := pyTruthy ip1 && pyTruthy ip2 && !(ip1 == ip2)
      resolveCalls := 2
      settleSleeps := [5] }
  else
    { returned := direct
      staleWarned := false
      resolveCalls := 1
      settleSleeps := [] }

/-- What one successful loop cycle of `change_ip_repeatedly` produced: the
sleep duration it slept, and the address it reported (`none` when
`if new_ip:` was falsy and reporting was skipped). -/
structure CycleOut where
  sleepTime : Int
  reported : Option String
deriving DecidableEq, Repr

/-- One iteration of the body of `change_ip_repeatedly` (tornet.py lines
281–293 / 295–307): compute the sleep time (which may raise), sleep,
`change_ip()` (reload then `ma_ip()`, whose value is the oracle `newIp`),
and report only when the new address is truthy. `reloadOk` is the outcome
of `reload_tor_service()`; it is logged but never influences control flow,
so the result does not depend on it. -/
def cycleBody (interval : PyVal) (r : Nat) (reloadOk : Bool)
    (newIp : Option String) : Except PyErr CycleOut :=
  match computeSleepTime interval r with
  | .error e => .error e
  | .ok t => .ok { sleepTime := t, reported := if pyTruthy newIp then newIp else none }

/-- State of the rotation loop: `running i` after `i` completed cycles,
`done` after a bounded loop exhausted its count, `raised` after an uncaught
exception escaped (with `entered` counting the cycle during which it was
raised). The executed sleeps and emitted reports are accumulated. -/
inductive LoopState
  | running (i : Nat) (sleeps : List Int) (reports : List String)
  | done (cycles : Nat) (sleeps : List Int) (reports : List String)
  | raised (e : PyErr) (entered : Nat) (sleeps : List Int) (reports : List String)
deriving DecidableEq, Repr

/-- The loop state at entry to `change_ip_repeatedly`. -/
def initState : LoopState := .running 0 [] []

/-- The report a cycle contributes to the log. -/
def reportList : Option String → List String
  | some s => [s]
  | none => []

/-- The number of cycles the bounded loop completed, when it is `done`. -/
def LoopState.cyclesDone : LoopState → Option Nat
  | .done n _ _ => some n
  | _ => none

/-- The cycle index when still `running`, else `none`. -/
def LoopState.runningAt : LoopState → Option Nat
  | .running i _ _ => some i
  | _ => none

/-- The sleeps executed so far. -/
def LoopState.sleepsOf : LoopState → List Int
  | .running _ s _ => s
  | .done _ s _ => s
  | .raised _ _ s _ => s

/-- The reports emitted so far. -/
def LoopState.reportsOf : LoopState → List String
  | .running _ _ r => r
  | .done _ _ r => r
  | .raised _ _ _ r => r

/-- One step of the `for _ in range(count)` branch of
`change_ip_repeatedly` (tornet.py lines 294–307). Oracles: `rand i` is the
entropy of cycle `i`, `reloadOk i` the outcome of its reload, `ips i` the
address `change_ip()` obtained. An uncaught exception moves to `raised`
(the cycle was entered, no sleep of that cycle was performed). -/
def stepBounded (interval : PyVal) (rand : Nat → Nat) (reloadOk : Nat → Bool)
    (ips : Nat → Option String) (count : Nat) : LoopState → LoopState
  | .running i sleeps reports =>
      if i < count then
        match cycleBody interval (rand i) (reloadOk i) (ips i) with
        | .ok c => .running (i + 1) (sleeps ++ [c.sleepTime]) (reports ++ reportList c.reported)
        | .error e => .raised e (i + 1) sleeps reports
      else .done i sleeps reports
  | s => s

/-- One step of the `while True` branch of `change_ip_repeatedly`
(tornet.py lines 280–293): same cycle body, but no exit transition. -/
def stepForever (interval : PyVal) (rand : Nat → Nat) (reloadOk : Nat → Bool)
    (ips : Nat → Option String) : LoopState → LoopState
  | .running i sleeps reports =>
      match cycleBody interval (rand i) (reloadOk i) (ips i) with
      | .ok c => .running (i + 1) (sleeps ++ [c.sleepTime]) (reports ++ reportList c.reported)
      | .error e => .raised e (i + 1) sleeps reports
  | s => s

/-- `change_ip_repeatedly interval count` as a step function: the code
branches on `count == 0` into the unbounded and bounded loops. -/
def change_ip_repeatedlyStep (interval : PyVal) (count : Nat) (rand : Nat → Nat)
    (reloadOk : Nat → Bool) (ips : Nat → Option String) : LoopState → LoopState :=
  if count = 0 then stepForever interval rand reloadOk ips
  else stepBounded interval rand reloadOk ips count

/-- The interval `main` passes to `change_ip_repeatedly` when `--interval`
is not given: `add_argument('--interval', type=str, default=60)` leaves the
default as the integer `60`, because argparse applies `type` only to
string values. -/
def cliDefaultInterval : PyVal := .int 60

/-- Per-attempt socket timeout in `wait_for_tor`: `s.settimeout(5)`. -/
def SUB_TIMEOUT : Nat := 5

/-- Fixed delay between failed attempts in `wait_for_tor`: `time.sleep(2)`. -/
def RETRY_DELAY : Nat := 2

/-- The retry loop of `wait_for_tor` (tornet.py lines 393–407), with an
explicit clock: while `elapsed < timeout`, attempt a SOCKS connection
(attempt `i` succeeds iff `connectOk i`, and a failing attempt occupies
`min (durs i) SUB_TIMEOUT` time units, capped by the socket timeout); a
success returns `true` immediately, a failure sleeps `RETRY_DELAY` and
retries. Returns the result and the number of attempts made. -/
def waitLoopAux (timeout : Nat) (connectOk : Nat → Bool) (durs : Nat → Nat)
    (i elapsed : Nat) : Bool × Nat :=
  if h : elapsed < timeout then
    if connectOk i then (true, i + 1)
    else waitLoopAux timeout connectOk durs (i + 1)
      (elapsed + min (durs i) SUB_TIMEOUT + RETRY_DELAY)
  else (false, i)
termination_by timeout - elapsed
decreasing_by simp [RETRY_DELAY]; omega

/-- `wait_for_tor timeout` (tornet.py lines 379–407): start the clock at
zero and run the retry loop. -/
def wait_for_tor (timeout : Nat) (connectOk : Nat → Bool) (durs : Nat → Nat) :
    Bool × Nat :=
  waitLoopAux timeout connectOk durs 0 0

/-- Process-level effect state: how many times the underlying Tor
service-stop operation has been performed. -/
structure ProcState where
  underlyingStops : Nat
deriving DecidableEq, Repr

/-- `stop_services` (tornet.py lines 332–354): in Docker it kills the Tor
process found by `pidof` (doing nothing but logging an error when the
lookup fails); otherwise it always runs `stop_tor_service()`. There is no
guard against repeated invocation — every call performs the underlying
stop again. -/
def stop_services (dockerEnv pidofOk : Bool) (s : ProcState) : ProcState :=
  if dockerEnv then
    if pidofOk then { underlyingStops := s.underlyingStops + 1 } else s
  else { underlyingStops := s.underlyingStops + 1 }

/-- The exit path taken by `signal_handler` (tornet.py lines 355–363):
`stop_services()` followed by `exit(0)`; when an atexit finalizer is
registered (as `test_sample.py` does with `atexit.register(stop_services)`),
the `SystemExit` raised by `exit(0)` triggers it, running `stop_services`
a second time. -/
def signalExitPath (atexitRegistered dockerEnv pidofOk : Bool)
    (s : ProcState) : ProcState :=
  let s1 := stop_services dockerEnv pidofOk s
  if atexitRegistered then stop_services dockerEnv pidofOk s1 else s1

/-! ## Claim C1 — cleanup idempotence (corrected) -/

/-- Claim C1, counterexample: `stop_services` has no once-only guard, so a
second call is not a no-op — two sequential calls (outside Docker) perform
the underlying service stop twice, not once as the claim states. -/
theorem stop_services_second_call_not_noop :
    (stop_services false true (stop_services false true ⟨0⟩)).underlyingStops = 2 ∧
    (stop_services false true (stop_services false true ⟨0⟩)).underlyingStops ≠ 1 :=
  ⟨rfl, by decide⟩

/-- Claim C1, amended: every call to `stop_services` (outside Docker, or in
Docker whenever the process lookup succeeds) performs the underlying
service stop again, so `n` calls yield `n` underlying stop invocations;
in particular the sample script's signal path (handler followed by the
atexit finalizer it registers) stops the service twice. -/
theorem stop_services_counts_every_call :
    (∀ (n : Nat) (s : ProcState),
        ((stop_services false true)^[n] s).underlyingStops = s.underlyingStops + n) ∧
    (∀ s : ProcState,
        (signalExitPath true false true s).underlyingStops = s.underlyingStops + 2) := by
  constructor
  · intro n
    induction n with
    | zero => intro s; simp
    | succ n ih =>
        intro s
        rw [Function.iterate_succ_apply']
        have := ih s
        simp [stop_services, this]
        omega
  · intro s
    simp [signalExitPath, stop_services]

/-! ## Claim C5 — resolver failure behaviour (confirmed) -/

/-- Claim C5: for both resolvers (`ma_ip_tor`, proxied, and `ma_ip_normal`,
direct), a transport failure (`RequestException`, modelled as a missing
response) or a non-success HTTP status (4xx/5xx, raised by
`raise_for_status` and caught) yields `None` rather than an exception, and
in particular never a zero-length address string. -/
theorem resolve_failure_yields_none :
    (∀ tresp : Option TorApiResponse,
        (tresp = none ∨ ∃ r, tresp = some r ∧ 400 ≤ r.status ∧ r.status < 600) →
        (ma_ip_tor tresp).1 = none ∧ (ma_ip_tor tresp).1 ≠ some "") ∧
    (∀ eresp : Option EchoResponse,
        (eresp = none ∨ ∃ r, eresp = some r ∧ 400 ≤ r.status ∧ r.status < 600) →
        ma_ip_normal eresp = none ∧ ma_ip_normal eresp ≠ some "") := by
  constructor
  · intro tresp h
    rcases h with h | ⟨r, hr, h1, h2⟩
    · subst h; exact ⟨rfl, by simp [ma_ip_tor]⟩
    · subst hr
      have : (ma_ip_tor (some r)).1 = none := by
        simp [ma_ip_tor, if_pos (And.intro h1 h2)]
      exact ⟨this, by rw [this]; simp⟩
  · intro eresp h
    rcases h with h | ⟨r, hr, h1, h2⟩
    · subst h; exact ⟨rfl, by simp [ma_ip_normal]⟩
    · subst hr
      have : ma_ip_normal (some r) = none := by
        simp [ma_ip_normal, if_pos (And.intro h1 h2)]
      exact ⟨this, by rw [this]; simp⟩

/-- Claim C5, witness: a 500 status through the proxy and a transport
failure on the direct path both give `None`, never `""`. -/
theorem resolve_failure_yields_none_witness :
    (ma_ip_tor (some ⟨500, some "1.2.3.4", true⟩)).1 = none ∧
    (ma_ip_tor (some ⟨500, some "1.2.3.4", true⟩)).1 ≠ some "" ∧
    ma_ip_normal none = none ∧ ma_ip_normal none ≠ some "" := by
  have h1 := resolve_failure_yields_none.1 (some ⟨500, some "1.2.3.4", true⟩)
    (Or.inr ⟨⟨500, some "1.2.3.4", true⟩, rfl, by norm_num, by norm_num⟩)
  have h2 := resolve_failure_yields_none.2 none (Or.inl rfl)
  exact ⟨h1.1, h1.2, h2.1, h2.2⟩

/-! ## Claim C4 — double resolution and staleness detection (confirmed) -/

/-- Claim C4: with the service running, `ma_ip` resolves through the proxy
twice with a fixed 5-unit settle sleep between the calls; equal results are
returned without a staleness warning; two truthy, different results warn
and return the second; a falsy second result falls back to the first. -/
theorem ma_ip_double_resolution (proxied : Nat → Option String) (direct : Option String) :
    (ma_ip true proxied direct).resolveCalls = 2 ∧
    (ma_ip true proxied direct).settleSleeps = [5] ∧
    (proxied 0 = proxied 1 →
        (ma_ip true proxied direct).returned = proxied 0 ∧
        (ma_ip true proxied direct).staleWarned = false) ∧
    (pyTruthy (proxied 0) = true → pyTruthy (proxied 1) = true → proxied 0 ≠ proxied 1 →
        (ma_ip true proxied direct).staleWarned = true ∧
        (ma_ip true proxied direct).returned = proxied 1) ∧
    (pyTruthy (proxied 1) = false →
        (ma_ip true proxied direct).returned = proxied 0) := by
  refine ⟨rfl, rfl, ?_, ?_, ?_⟩
  · intro h
    constructor
    · simp [ma_ip, pyOr, h]
    · simp [ma_ip, h]
  · intro h1 h2 hne
    constructor
    · simp [ma_ip, h1, h2, hne]
    · simp [ma_ip, pyOr, h2]
  · intro h
    simp [ma_ip, pyOr, h]

/-- Claim C4, witness: two different truthy addresses warn of a stale
circuit and the second is returned. -/
theorem ma_ip_double_resolution_witness :
    (ma_ip true (fun n => if n = 0 then some "1.2.3.4" else some "5.6.7.8") none).staleWarned = true ∧
    (ma_ip true (fun n => if n = 0 then some "1.2.3.4" else some "5.6.7.8") none).returned = some "5.6.7.8" := by
  have h := (ma_ip_double_resolution
      (fun n => if n = 0 then some "1.2.3.4" else some "5.6.7.8") none).2.2.2.1
    (by decide) (by decide) (by decide)
  exact ⟨h.1, h.2⟩

/-! ## Claim C10 — single missing resolution (confirmed) -/

/-- Claim C10: when exactly one of the two proxied resolutions inside
`ma_ip` is falsy (no result), the two results differ yet no staleness
warning is emitted, and the single truthy result is returned (the second
preferentially, otherwise the first); the warning requires both results
truthy and unequal. -/
theorem ma_ip_single_empty_result (proxied : Nat → Option String) (direct : Option String) :
    (pyTruthy (proxied 0) = false → pyTruthy (proxied 1) = true →
        proxied 0 ≠ proxied 1 ∧
        (ma_ip true proxied direct).staleWarned = false ∧
        (ma_ip true proxied direct).returned = proxied 1) ∧
    (pyTruthy (proxied 0) = true → pyTruthy (proxied 1) = false →
        proxied 0 ≠ proxied 1 ∧
        (ma_ip true proxied direct).staleWarned = false ∧
        (ma_ip true proxied direct).returned = proxied 0) ∧
    ((ma_ip true proxied direct).staleWarned = true →
        pyTruthy (proxied 0) = true ∧ pyTruthy (proxied 1) = true ∧
        proxied 0 ≠ proxied 1) := by
  refine ⟨?_, ?_, ?_⟩
  · intro h0 h1
    refine ⟨?_, ?_, ?_⟩
    · intro heq; rw [heq, h1] at h0; simp at h0
    · simp [ma_ip, h0]
    · simp [ma_ip, pyOr, h1]
  · intro h0 h1
    refine ⟨?_, ?_, ?_⟩
    · intro heq; rw [heq, h1] at h0; simp at h0
    · simp [ma_ip, h1]
    · simp [ma_ip, pyOr, h1]
  · intro h
    replace h : (pyTruthy (proxied 0) && pyTruthy (proxied 1)
        && !(proxied 0 == proxied 1)) = true := h
    simp only [Bool.and_eq_true, Bool.not_eq_eq_eq_not, Bool.not_true,
      beq_eq_false_iff_ne] at h
    exact ⟨h.1.1, h.1.2, h.2⟩

/-- Claim C10, witness: first proxied resolution fails, second succeeds —
the second is returned and no warning is emitted. -/
theorem ma_ip_single_empty_result_witness :
    (fun n => if n = 0 then none else some "9.9.9.9") 0
        ≠ (fun n => if n = 0 then none else some "9.9.9.9") 1 ∧
    (ma_ip true (fun n => if n = 0 then none else some "9.9.9.9") none).staleWarned = false ∧
    (ma_ip true (fun n => if n = 0 then none else some "9.9.9.9") none).returned = some "9.9.9.9" := by
  have h := (ma_ip_single_empty_result
      (fun n => if n = 0 then none else some "9.9.9.9") none).1 (by decide) (by decide)
  exact ⟨h.1, h.2.1, h.2.2⟩

/-! ## Claims C9 and C2 — invalid interval values -/

/-- Helper: a raised state is a fixed point of either loop branch. -/
lemma change_ip_repeatedlyStep_raised (interval : PyVal) (count : Nat)
    (rand : Nat → Nat) (reloadOk : Nat → Bool) (ips : Nat → Option String)
    (e : PyErr) (n : Nat) (sl : List Int) (rp : List String) :
    change_ip_repeatedlyStep interval count rand reloadOk ips (.raised e n sl rp)
      = .raised e n sl rp := by
  unfold change_ip_repeatedlyStep
  by_cases hc : count = 0 <;> simp [hc, stepForever, stepBounded]

/-- Helper: when the cycle body raises on the first cycle, the very first
step of either loop branch moves to `raised` with no sleep performed. -/
lemma change_ip_repeatedlyStep_first_raise (interval : PyVal) (count : Nat)
    (rand : Nat → Nat) (reloadOk : Nat → Bool) (ips : Nat → Option String)
    (e : PyErr)
    (hbody : cycleBody interval (rand 0) (reloadOk 0) (ips 0) = .error e) :
    change_ip_repeatedlyStep interval count rand reloadOk ips initState
      = .raised e 1 [] [] := by
  unfold change_ip_repeatedlyStep
  by_cases hc : count = 0
  · simp [hc, stepForever, initState, hbody]
  · simp [hc, stepBounded, initState, Nat.pos_of_ne_zero hc, hbody]

/-- Claim C9: when `change_ip_repeatedly` receives a non-string interval —
exactly what `main` passes when `--interval` is absent, since argparse
leaves the integer default `60` unconverted — the first cycle raises an
uncaught `AttributeError` (from `interval.split`) before any sleep occurs,
in both the bounded and the unbounded branch, and the loop stays dead
thereafter (the `except IndexError` handler does not catch it). -/
theorem cli_default_interval_attribute_error (count k : Nat) (rand : Nat → Nat)
    (reloadOk : Nat → Bool) (ips : Nat → Option String) :
    (change_ip_repeatedlyStep cliDefaultInterval count rand reloadOk ips)^[k + 1] initState
      = .raised .attributeError 1 [] [] := by
  have h1 := change_ip_repeatedlyStep_first_raise cliDefaultInterval count rand reloadOk ips
    .attributeError rfl
  rw [Function.iterate_succ_apply, h1,
    Function.iterate_fixed (change_ip_repeatedlyStep_raised _ _ _ _ _ _ _ _ _)]

/-- Claim C2, counterexample: for the range `"120-60"` (lower bound above
upper bound) no configuration error is reported before the loop starts —
the loop body of cycle 1 is entered (`entered = 1`, not `0`) and only there
does `random.randint` raise `ValueError`, which the `except IndexError`
handler does not catch. -/
theorem bad_range_error_inside_first_cycle :
    stepBounded (.str "120-60") (fun _ => 0) (fun _ => true) (fun _ => none) 1 initState
      = .raised .valueError 1 [] [] ∧ (1 : Nat) ≠ 0 :=
  ⟨rfl, by decide⟩

/-- Claim C2, amended: a range interval whose lower bound exceeds its upper
bound, or a non-numeric interval, is not validated before the loop; instead
the first cycle is entered and raises an uncaught `ValueError` there,
before any sleep, terminating the loop during cycle 1 in both branches. -/
theorem invalid_interval_raises_in_first_cycle (interval : PyVal)
    (h : ∀ r, computeSleepTime interval r = .error .valueError)
    (count k : Nat) (rand : Nat → Nat) (reloadOk : Nat → Bool)
    (ips : Nat → Option String) :
    (change_ip_repeatedlyStep interval count rand reloadOk ips)^[k + 1] initState
      = .raised .valueError 1 [] [] := by
  have hbody : cycleBody interval (rand 0) (reloadOk 0) (ips 0) = .error .valueError := by
    unfold cycleBody; rw [h]
  have h1 := change_ip_repeatedlyStep_first_raise interval count rand reloadOk ips
    .valueError hbody
  rw [Function.iterate_succ_apply, h1,
    Function.iterate_fixed (change_ip_repeatedlyStep_raised _ _ _ _ _ _ _ _ _)]

/-- Claim C2, witness: with interval `"120-60"` and count 3, the first step
already leaves the loop in the raised state, with no sleeps and no reports. -/
theorem invalid_interval_raises_witness :
    (change_ip_repeatedlyStep (.str "120-60") 3 (fun _ => 0) (fun _ => true)
      (fun _ => none))^[1] initState = .raised .valueError 1 [] [] :=
  invalid_interval_raises_in_first_cycle (.str "120-60") (fun _ => rfl) 3 0
    (fun _ => 0) (fun _ => true) (fun _ => none)

/-! ## Claim C3 — sleep duration per cycle (confirmed) -/

/-- Claim C3: per cycle, a fixed interval (no `-`, numeric) yields exactly
that duration, and a range `"min-max"` with `min ≤ max` yields the uniform
draw `min + r % (max - min + 1)`, which lies in the inclusive range
`[min, max]`. -/
theorem sleep_time_fixed_and_range :
    (∀ (s : String) (d : Int) (r : Nat),
        pySplit s = [s] → pyInt s = .ok d →
        computeSleepTime (.str s) r = .ok d) ∧
    (∀ (s s1 s2 : String) (mn mx : Int) (r : Nat),
        pySplit s = [s1, s2] → pyInt s1 = .ok mn → pyInt s2 = .ok mx → mn ≤ mx →
        computeSleepTime (.str s) r = .ok (mn + (r : Int) % (mx - mn + 1)) ∧
        mn ≤ mn + (r : Int) % (mx - mn + 1) ∧
        mn + (r : Int) % (mx - mn + 1) ≤ mx) := by
  constructor
  · intro s d r hsplit hint
    simp [computeSleepTime, hsplit, hint]
  · intro s s1 s2 mn mx r hsplit h1 h2 hle
    have hmodnn : 0 ≤ (r : Int) % (mx - mn + 1) :=
      Int.emod_nonneg _ (by omega)
    have hmodlt : (r : Int) % (mx - mn + 1) < mx - mn + 1 :=
      Int.emod_lt_of_pos _ (by omega)
    refine ⟨?_, by omega, by omega⟩
    simp [computeSleepTime, hsplit, h1, h2, randint, hle]

/-- Claim C3, witness: `"60"` sleeps exactly 60; `"60-120"` with entropy 7
sleeps `60 + 7 % 61 = 67`, inside `[60, 120]`. -/
theorem sleep_time_fixed_and_range_witness :
    computeSleepTime (.str "60") 7 = .ok 60 ∧
    computeSleepTime (.str "60-120") 7 = .ok (60 + (7 : Int) % (120 - 60 + 1)) ∧
    (60 : Int) ≤ 60 + (7 : Int) % (120 - 60 + 1) ∧
    60 + (7 : Int) % (120 - 60 + 1) ≤ 120 := by
  have hfix := sleep_time_fixed_and_range.1 "60" 60 7 rfl rfl
  have hrange := sleep_time_fixed_and_range.2 "60-120" "60" "120" 60 120 7
    rfl rfl rfl (by norm_num)
  exact ⟨hfix, hrange.1, hrange.2.1, hrange.2.2⟩

/-! ## Claims C6 and C7 — loop count semantics and failure tolerance -/

/-- Helper: a successful sleep-time computation makes the cycle body
succeed, reporting the new address exactly when it is truthy. -/
lemma cycleBody_ok_of (interval : PyVal) (r : Nat) (reloadOk : Bool)
    (ip : Option String) (t : Int)
    (ht : computeSleepTime interval r = .ok t) :
    cycleBody interval r reloadOk ip
      = .ok ⟨t, if pyTruthy ip then ip else none⟩ := by
  unfold cycleBody; rw [ht]

/-- Helper: a successful cycle advances the bounded loop. -/
lemma stepBounded_advance (interval : PyVal) (rand : Nat → Nat)
    (reloadOk : Nat → Bool) (ips : Nat → Option String) (count i : Nat)
    (sleeps : List Int) (reports : List String) (c : CycleOut)
    (hlt : i < count)
    (hc : cycleBody interval (rand i) (reloadOk i) (ips i) = .ok c) :
    stepBounded interval rand reloadOk ips count (.running i sleeps reports)
      = .running (i + 1) (sleeps ++ [c.sleepTime])
          (reports ++ reportList c.reported) := by
  simp [stepBounded, hlt, hc]

/-- Helper: a successful cycle advances the unbounded loop. -/
lemma stepForever_advance (interval : PyVal) (rand : Nat → Nat)
    (reloadOk : Nat → Bool) (ips : Nat → Option String) (i : Nat)
    (sleeps : List Int) (reports : List String) (c : CycleOut)
    (hc : cycleBody interval (rand i) (reloadOk i) (ips i) = .ok c) :
    stepForever interval rand reloadOk ips (.running i sleeps reports)
      = .running (i + 1) (sleeps ++ [c.sleepTime])
          (reports ++ reportList c.reported) := by
  simp [stepForever, hc]

/-- Helper invariant: while the index stays below `count` and every sleep
computation succeeds, iterating the bounded loop accumulates one sleep per
cycle and stays `running`. -/
lemma stepBounded_iterate (interval : PyVal) (rand : Nat → Nat)
    (reloadOk : Nat → Bool) (ips : Nat → Option String) (count : Nat)
    (hgood : ∀ i, ∃ t, computeSleepTime interval (rand i) = .ok t) :
    ∀ (k i : Nat) (sleeps : List Int) (reports : List String), i + k ≤ count →
      ∃ (sl : List Int) (rp : List String),
        (stepBounded interval rand reloadOk ips count)^[k] (.running i sleeps reports)
          = .running (i + k) (sleeps ++ sl) (reports ++ rp) ∧ sl.length = k := by
  intro k
  induction k with
  | zero => intro i sleeps reports _; exact ⟨[], [], by simp, rfl⟩
  | succ k ih =>
      intro i sleeps reports h
      obtain ⟨t, ht⟩ := hgood i
      have hc := cycleBody_ok_of interval (rand i) (reloadOk i) (ips i) t ht
      rw [Function.iterate_succ_apply,
        stepBounded_advance interval rand reloadOk ips count i sleeps reports _
          (by omega) hc]
      obtain ⟨sl, rp, hrun, hlen⟩ := ih (i + 1) (sleeps ++ [t])
        (reports ++ reportList (if pyTruthy (ips i) then ips i else none)) (by omega)
      refine ⟨t :: sl, reportList (if pyTruthy (ips i) then ips i else none) ++ rp,
        ?_, by simp [hlen]⟩
      rw [hrun]
      have hidx : i + 1 + k = i + (k + 1) := by omega
      simp [hidx, List.append_assoc]

/-- Helper invariant: with every sleep computation succeeding, the
unbounded loop is still `running` after any number of steps. -/
lemma stepForever_iterate (interval : PyVal) (rand : Nat → Nat)
    (reloadOk : Nat → Bool) (ips : Nat → Option String)
    (hgood : ∀ i, ∃ t, computeSleepTime interval (rand i) = .ok t) :
    ∀ (k i : Nat) (sleeps : List Int) (reports : List String),
      ∃ (sl : List Int) (rp : List String),
        (stepForever interval rand reloadOk ips)^[k] (.running i sleeps reports)
          = .running (i + k) (sleeps ++ sl) (reports ++ rp) ∧ sl.length = k := by
  intro k
  induction k with
  | zero => intro i sleeps reports; exact ⟨[], [], by simp, rfl⟩
  | succ k ih =>
      intro i sleeps reports
      obtain ⟨t, ht⟩ := hgood i
      have hc := cycleBody_ok_of interval (rand i) (reloadOk i) (ips i) t ht
      rw [Function.iterate_succ_apply,
        stepForever_advance interval rand reloadOk ips i sleeps reports _ hc]
      obtain ⟨sl, rp, hrun, hlen⟩ := ih (i + 1) (sleeps ++ [t])
        (reports ++ reportList (if pyTruthy (ips i) then ips i else none))
      refine ⟨t :: sl, reportList (if pyTruthy (ips i) then ips i else none) ++ rp,
        ?_, by simp [hlen]⟩
      rw [hrun]
      have hidx : i + 1 + k = i + (k + 1) := by omega
      simp [hidx, List.append_assoc]

/-- Claim C6: with a valid interval, a bounded count `n > 0` makes
`change_ip_repeatedly` perform exactly `n` sleep+reload+resolve cycles
(`n` sleeps accumulated) and then terminate in the `done` state, while
`count = 0` keeps the loop `running` forever — after any `k` steps it is
still running, having completed `k` cycles, and is never `done`. -/
theorem rotation_loop_count_semantics (interval : PyVal) (rand : Nat → Nat)
    (reloadOk : Nat → Bool) (ips : Nat → Option String)
    (hgood : ∀ i, ∃ t, computeSleepTime interval (rand i) = .ok t) :
    (∀ count : Nat, 0 < count →
        ((change_ip_repeatedlyStep interval count rand reloadOk ips)^[count + 1]
            initState).cyclesDone = some count ∧
        ((change_ip_repeatedlyStep interval count rand reloadOk ips)^[count + 1]
            initState).sleepsOf.length = count) ∧
    (∀ k : Nat,
        ((change_ip_repeatedlyStep interval 0 rand reloadOk ips)^[k]
            initState).runningAt = some k) := by
  constructor
  · intro count hcount
    have hstep : change_ip_repeatedlyStep interval count rand reloadOk ips
        = stepBounded interval rand reloadOk ips count := by
      unfold change_ip_repeatedlyStep
      rw [if_neg (by omega)]
    obtain ⟨sl, rp, hrun, hlen⟩ := stepBounded_iterate interval rand reloadOk ips
      count hgood count 0 [] [] (by omega)
    rw [hstep, Function.iterate_succ_apply', initState] at *
    rw [hrun]
    have hdone : stepBounded interval rand reloadOk ips count
        (.running (0 + count) ([] ++ sl) ([] ++ rp))
        = .done count ([] ++ sl) ([] ++ rp) := by
      simp [stepBounded]
    rw [hdone]
    exact ⟨rfl, by simpa [LoopState.sleepsOf] using hlen⟩
  · intro k
    have hstep : change_ip_repeatedlyStep interval 0 rand reloadOk ips
        = stepForever interval rand reloadOk ips := by
      unfold change_ip_repeatedlyStep
      rw [if_pos rfl]
    obtain ⟨sl, rp, hrun, _⟩ := stepForever_iterate interval rand reloadOk ips
      hgood k 0 [] []
    rw [hstep, initState, hrun]
    simp [LoopState.runningAt]

/-- Claim C6, witness: interval `"3"`, count 3 reaches `done` after exactly
3 cycles and 3 sleeps; with count 0 the loop is still running after 5
steps, having completed 5 cycles. -/
theorem rotation_loop_count_semantics_witness :
    ((change_ip_repeatedlyStep (.str "3") 3 (fun _ => 0) (fun _ => true)
        (fun _ => none))^[4] initState).cyclesDone = some 3 ∧
    ((change_ip_repeatedlyStep (.str "3") 3 (fun _ => 0) (fun _ => true)
        (fun _ => none))^[4] initState).sleepsOf.length = 3 ∧
    ((change_ip_repeatedlyStep (.str "3") 0 (fun _ => 0) (fun _ => true)
        (fun _ => none))^[5] initState).runningAt = some 5 := by
  have h := rotation_loop_count_semantics (.str "3") (fun _ => 0) (fun _ => true)
    (fun _ => none) (fun _ => ⟨3, rfl⟩)
  exact ⟨(h.1 3 (by norm_num)).1, (h.1 3 (by norm_num)).2, h.2 5⟩

/-- Helper invariant: when additionally every resolved address is falsy,
no cycle reports, so the report log stays unchanged. -/
lemma stepBounded_iterate_noreport (interval : PyVal) (rand : Nat → Nat)
    (reloadOk : Nat → Bool) (ips : Nat → Option String) (count : Nat)
    (hgood : ∀ i, ∃ t, computeSleepTime interval (rand i) = .ok t)
    (hips : ∀ i, pyTruthy (ips i) = false) :
    ∀ (k i : Nat) (sleeps : List Int) (reports : List String), i + k ≤ count →
      ∃ sl : List Int,
        (stepBounded interval rand reloadOk ips count)^[k] (.running i sleeps reports)
          = .running (i + k) (sleeps ++ sl) reports ∧ sl.length = k := by
  intro k
  induction k with
  | zero => intro i sleeps reports _; exact ⟨[], by simp, rfl⟩
  | succ k ih =>
      intro i sleeps reports h
      obtain ⟨t, ht⟩ := hgood i
      have hc := cycleBody_ok_of interval (rand i) (reloadOk i) (ips i) t ht
      rw [hips i] at hc
      simp only [if_false, Bool.false_eq_true] at hc
      rw [Function.iterate_succ_apply,
        stepBounded_advance interval rand reloadOk ips count i sleeps reports _
          (by omega) hc]
      obtain ⟨sl, hrun, hlen⟩ := ih (i + 1) (sleeps ++ [t]) (reports ++ reportList none)
        (by omega)
      refine ⟨t :: sl, ?_, by simp [hlen]⟩
      rw [hrun]
      have hidx : i + 1 + k = i + (k + 1) := by omega
      simp [hidx, List.append_assoc, reportList]

/-- Claim C7: when every cycle's post-rotation resolution is falsy (no
address, including because `reload_tor_service` fails — `reloadOk` is
arbitrary and never consulted by control flow), each cycle skips reporting
but the loop neither raises nor stops early: it still attempts the full
configured number of cycles and terminates in `done` with an empty report
log. -/
theorem failed_resolution_skips_report_and_continues (interval : PyVal)
    (rand : Nat → Nat) (reloadOk : Nat → Bool) (ips : Nat → Option String)
    (count : Nat) (hcount : 0 < count)
    (hgood : ∀ i, ∃ t, computeSleepTime interval (rand i) = .ok t)
    (hips : ∀ i, pyTruthy (ips i) = false) :
    ((stepBounded interval rand reloadOk ips count)^[count + 1]
        initState).cyclesDone = some count ∧
    ((stepBounded interval rand reloadOk ips count)^[count + 1]
        initState).reportsOf = [] ∧
    ((stepBounded interval rand reloadOk ips count)^[count + 1]
        initState).sleepsOf.length = count := by
  obtain ⟨sl, hrun, hlen⟩ := stepBounded_iterate_noreport interval rand reloadOk ips
    count hgood hips count 0 [] [] (by omega)
  rw [Function.iterate_succ_apply', initState, hrun]
  have hdone : stepBounded interval rand reloadOk ips count
      (.running (0 + count) ([] ++ sl) [])
      = .done count ([] ++ sl) [] := by
    simp [stepBounded]
  rw [hdone]
  exact ⟨rfl, rfl, by simpa [LoopState.sleepsOf] using hlen⟩

/-- Claim C7, witness: interval `"2"`, count 2, reload failing every cycle
and every resolution empty — the loop still runs both cycles, reports
nothing, and finishes. -/
theorem failed_resolution_skips_report_witness :
    ((stepBounded (.str "2") (fun _ => 0) (fun _ => false) (fun _ => none) 2)^[3]
        initState).cyclesDone = some 2 ∧
    ((stepBounded (.str "2") (fun _ => 0) (fun _ => false) (fun _ => none) 2)^[3]
        initState).reportsOf = [] ∧
    ((stepBounded (.str "2") (fun _ => 0) (fun _ => false) (fun _ => none) 2)^[3]
        initState).sleepsOf.length = 2 :=
  failed_resolution_skips_report_and_continues (.str "2") (fun _ => 0)
    (fun _ => false) (fun _ => none) 2 (by norm_num) (fun _ => ⟨2, rfl⟩)
    (fun _ => rfl)

/-! ## Claim C8 — SOCKS readiness wait (confirmed) -/

/-- Helper: when every connection attempt fails, the wait loop returns
`false` (once the overall timeout has elapsed). -/
lemma waitLoopAux_all_fail (timeout : Nat) (connectOk : Nat → Bool)
    (durs : Nat → Nat) (hfail : ∀ i, connectOk i = false) :
    ∀ (fuel i elapsed : Nat), timeout - elapsed ≤ fuel →
      (waitLoopAux timeout connectOk durs i elapsed).1 = false := by
  intro fuel
  induction fuel with
  | zero =>
      intro i elapsed he
      unfold waitLoopAux
      rw [dif_neg (by omega)]
  | succ n ih =>
      intro i elapsed he
      unfold waitLoopAux
      by_cases h : elapsed < timeout
      · rw [dif_pos h, hfail i]
        simp only [Bool.false_eq_true, if_false]
        exact ih _ _ (by simp [RETRY_DELAY]; omega)
      · rw [dif_neg h]

/-- Helper: each failed attempt consumes at least `RETRY_DELAY = 2` time
units, so the number of attempts is bounded by half the remaining time. -/
lemma waitLoopAux_attempts_le (timeout : Nat) (connectOk : Nat → Bool)
    (durs : Nat → Nat) :
    ∀ (fuel i elapsed : Nat), timeout - elapsed ≤ fuel →
      (waitLoopAux timeout connectOk durs i elapsed).2
        ≤ i + (timeout - elapsed + 1) / 2 := by
  intro fuel
  induction fuel with
  | zero =>
      intro i elapsed he
      unfold waitLoopAux
      rw [dif_neg (by omega)]
      omega
  | succ n ih =>
      intro i elapsed he
      unfold waitLoopAux
      by_cases h : elapsed < timeout
      · rw [dif_pos h]
        by_cases hc : connectOk i
        · rw [if_pos hc]
          show i + 1 ≤ i + (timeout - elapsed + 1) / 2
          omega
        · rw [if_neg hc]
          have hrec := ih (i + 1)
            (elapsed + min (durs i) SUB_TIMEOUT + RETRY_DELAY)
            (by simp [RETRY_DELAY]; omega)
          have hmin : 0 ≤ min (durs i) SUB_TIMEOUT := Nat.zero_le _
          simp only [RETRY_DELAY] at hrec ⊢
          omega
      · rw [dif_neg h]
        omega

/-- Helper: the first attempt succeeding returns `true` immediately, after
exactly one attempt. -/
lemma waitLoopAux_first_success (timeout : Nat) (connectOk : Nat → Bool)
    (durs : Nat → Nat) (ht : 0 < timeout) (hc : connectOk 0 = true) :
    waitLoopAux timeout connectOk durs 0 0 = (true, 1) := by
  unfold waitLoopAux
  rw [dif_pos ht, if_pos hc]

/-- Claim C8: `wait_for_tor` uses a fixed per-attempt socket timeout of 5
time units and a fixed 2-unit delay after each failure (no exponential
backoff: a failed attempt advances the clock by exactly the capped attempt
duration plus `RETRY_DELAY`); it returns `true` on the first successful
attempt, returns `false` once the overall timeout has elapsed when every
attempt fails, and never retries indefinitely — the attempt count is
bounded by `(timeout + 1) / 2`. -/
theorem wait_for_tor_contract :
    SUB_TIMEOUT = 5 ∧ RETRY_DELAY = 2 ∧
    (∀ (timeout : Nat) (connectOk : Nat → Bool) (durs : Nat → Nat) (i e : Nat),
        e < timeout → connectOk i = false →
        waitLoopAux timeout connectOk durs i e
          = waitLoopAux timeout connectOk durs (i + 1)
              (e + min (durs i) SUB_TIMEOUT + RETRY_DELAY)) ∧
    (∀ (timeout : Nat) (connectOk : Nat → Bool) (durs : Nat → Nat),
        0 < timeout → connectOk 0 = true →
        wait_for_tor timeout connectOk durs = (true, 1)) ∧
    (∀ (timeout : Nat) (connectOk : Nat → Bool) (durs : Nat → Nat),
        (∀ i, connectOk i = false) →
        (wait_for_tor timeout connectOk durs).1 = false) ∧
    (∀ (timeout : Nat) (connectOk : Nat → Bool) (durs : Nat → Nat),
        (wait_for_tor timeout connectOk durs).2 ≤ (timeout + 1) / 2) := by
  refine ⟨rfl, rfl, ?_, ?_, ?_, ?_⟩
  · intro timeout connectOk durs i e he hc
    conv_lhs => unfold waitLoopAux
    rw [dif_pos he, if_neg (by simp [hc])]
  · intro timeout connectOk durs ht hc
    exact waitLoopAux_first_success timeout connectOk durs ht hc
  · intro timeout connectOk durs hfail
    exact waitLoopAux_all_fail timeout connectOk durs hfail (timeout - 0) 0 0 le_rfl
  · intro timeout connectOk durs
    have h := waitLoopAux_attempts_le timeout connectOk durs (timeout - 0) 0 0 le_rfl
    simpa [wait_for_tor] using h

/-- Claim C8, witness: with a 10-unit timeout, an immediately responsive
proxy yields `(true, 1)`; a dead proxy yields `false` with at most
`(10 + 1) / 2 = 5` attempts; a failed first attempt at time 0 retries at
time `0 + min 3 5 + 2`. -/
theorem wait_for_tor_contract_witness :
    wait_for_tor 10 (fun _ => true) (fun _ => 3) = (true, 1) ∧
    (wait_for_tor 10 (fun _ => false) (fun _ => 3)).1 = false ∧
    (wait_for_tor 10 (fun _ => false) (fun _ => 3)).2 ≤ (10 + 1) / 2 ∧
    waitLoopAux 10 (fun _ => false) (fun _ => 3) 0 0
      = waitLoopAux 10 (fun _ => false) (fun _ => 3) 1 (0 + min 3 SUB_TIMEOUT + RETRY_DELAY) := by
  refine ⟨wait_for_tor_contract.2.2.2.1 10 (fun _ => true) (fun _ => 3)
      (by norm_num) rfl,
    wait_for_tor_contract.2.2.2.2.1 10 (fun _ => false) (fun _ => 3) (fun _ => rfl),
    wait_for_tor_contract.2.2.2.2.2 10 (fun _ => false) (fun _ => 3),
    wait_for_tor_contract.2.2.1 10 (fun _ => false) (fun _ => 3) 0 0
      (by norm_num) rfl⟩

end Tornet
